import Mathlib

/-!
Shallow embedding of the quota / operation-accounting subsystem of the
markdown-publisher repository, together with the publish orchestrator,
the document-view loader and the content-moderation fallback.

Sources embedded:
- `src/app/utils/quota.ts` : `checkQuota`, `consumeQuota`, `getUsageStats`,
  constants `FREE_QUOTA` and `QUOTA_RESET_HOURS`;
- `src/app/routes.ts` (home action) : the publish orchestration with its
  refund-on-failure branches, and the document loader that logs views;
- `src/unnamed/part_002` : `moderateContent` and `basicContentCheck`;
- `src/unnamed/part_000` : the `quotas` / `operations` / `documents` tables.

Conventions of the embedding:
- Timestamps are integer milliseconds since the epoch (`Int`), matching
  `Date.getTime()`.  The JS float division `(now - last) / 3600000 >= 24`
  is embedded as the integer comparison `now - last >= 24 * 3600000`,
  which agrees with it on every representable input of interest.
- The database is modelled per identity (the tables are keyed by
  `ip_address`; rows of distinct identities never interact), as a record
  holding the optional `quotas` row, the `operations` rows in insertion
  order, and the `documents` rows.
- JS numbers for quota counts are embedded as `Int`.
- Fallible externals (the AI binding, the secondary rate limiter, the
  document insert) are passed in as explicit outcome values.
-/

/-- `const FREE_QUOTA = 50` (quota.ts). -/
def FREE_QUOTA : Int := 50

/-- `const QUOTA_RESET_HOURS = 24` (quota.ts). -/
def QUOTA_RESET_HOURS : Int := 24

/-- Milliseconds per hour, `1000 * 60 * 60` as written in quota.ts. -/
def msPerHour : Int := 1000 * 60 * 60

/-- One row of the `quotas` table for the modelled identity:
`remaining_operations` and `last_reset` (as a timestamp). -/
structure QuotaRow where
  remaining : Int
  lastReset : Int
  deriving DecidableEq, Repr

/-- One row of the `operations` table for the modelled identity:
`operation_type`, `operation_count`, `document_id`, `created_at`.
`createdAt` is the instant at which the row was inserted; the column
itself is populated by the schema default `CURRENT_TIMESTAMP` and holds
the TEXT rendering `sqliteTimestamp createdAt` of that instant (the
INSERT in `consumeQuota` never supplies the column), which matters when
the column is compared as a string — see `getUsageStats`. -/
structure OpRow where
  opType : String
  opCount : Int
  docId : Option String
  createdAt : Int
  deriving DecidableEq, Repr

/-- One row of the `documents` table: `id`, `title`, `content`. -/
structure DocRow where
  id : String
  title : String
  content : String
  deriving DecidableEq, Repr

/-- The database state visible to one identity: its optional `quotas` row,
its `operations` rows in insertion order, and the `documents` table. -/
structure DB where
  quota : Option QuotaRow
  ops : List OpRow
  docs : List DocRow
  deriving DecidableEq, Repr

/-- The `QuotaInfo` interface of quota.ts; `resetTime` is the timestamp
whose ISO rendering the code returns. -/
structure QuotaInfo where
  ip : String
  remaining : Int
  total : Int
  resetTime : Int
  isNewUser : Bool
  deriving DecidableEq, Repr

/-- The `OperationResult` interface of quota.ts. -/
structure OperationResult where
  success : Bool
  quota : Option QuotaInfo
  error : Option String
  deriving DecidableEq, Repr

/-- `checkQuota(ip, db)` from quota.ts, at current time `now`.
Returns the `QuotaInfo` and the updated database:
- no `quotas` row: INSERT a fresh row `(FREE_QUOTA, now)`, report
  `isNewUser = true`;
- row older than the reset window: UPDATE it to `(FREE_QUOTA, now)`;
- otherwise: report the stored values unchanged. -/
def checkQuota (ip : String) (now : Int) (db : DB) : QuotaInfo × DB :=
  match db.quota with
  | none =>
      ({ ip := ip, remaining := FREE_QUOTA, total := FREE_QUOTA,
         resetTime := now + QUOTA_RESET_HOURS * msPerHour, isNewUser := true },
       { db with quota := some { remaining := FREE_QUOTA, lastReset := now } })
  | some q =>
      if QUOTA_RESET_HOURS * msPerHour ≤ now - q.lastReset then
        ({ ip := ip, remaining := FREE_QUOTA, total := FREE_QUOTA,
           resetTime := now + QUOTA_RESET_HOURS * msPerHour, isNewUser := false },
         { db with quota := some { remaining := FREE_QUOTA, lastReset := now } })
      else
        ({ ip := ip, remaining := q.remaining, total := FREE_QUOTA,
           resetTime := q.lastReset + QUOTA_RESET_HOURS * msPerHour, isNewUser := false },
        db)

/-- The insufficient-quota message built by `consumeQuota` in quota.ts. -/
def insufficientMsg (remaining operationCount : Int) : String :=
  "Insufficient quota. You have " ++ toString remaining ++
    " documents remaining. This action requires " ++ toString operationCount ++ " documents."

/-- `consumeQuota(ip, operationType, operationCount, db, documentId)` from
quota.ts, at current time `now` (the happy path; the catch-all handler is
modelled separately for the fault-propagation claim):
1. `checkQuota` (may create or reset the row);
2. if `remaining < operationCount`: failure, no further writes;
3. else UPDATE `remaining_operations` to `remaining - operationCount`
   (keeping `last_reset`) and INSERT an `operations` row. -/
def consumeQuota (ip operationType : String) (operationCount : Int) (now : Int)
    (db : DB) (documentId : Option String) : OperationResult × DB :=
  let (quotaInfo, db1) := checkQuota ip now db
  if quotaInfo.remaining < operationCount then
    ({ success := false, quota := some quotaInfo,
       error := some (insufficientMsg quotaInfo.remaining operationCount) }, db1)
  else
    let newRemaining := quotaInfo.remaining - operationCount
    let db2 : DB :=
      match db1.quota with
      | some q => { db1 with quota := some { q with remaining := newRemaining } }
      | none => db1
    let db3 : DB :=
      { db2 with ops := db2.ops ++
          [{ opType := operationType, opCount := operationCount,
             docId := documentId, createdAt := now }] }
    ({ success := true, quota := some { quotaInfo with remaining := newRemaining },
       error := none }, db3)

/-- The orchestrator's refund statement from routes.ts:
`UPDATE quotas SET remaining_operations = remaining_operations + 1
 WHERE ip_address = ?` — a no-op when no row matches, uncapped otherwise. -/
def refundOne (db : DB) : DB :=
  match db.quota with
  | some q => { db with quota := some { q with remaining := q.remaining + 1 } }
  | none => db

/-! ## Content moderation (src/unnamed/part_002)

The six regular expressions of `basicContentCheck` are embedded as
decidable matchers over the lower-cased character list of the content
(all six patterns carry the `i` flag and are ASCII, so lower-casing both
sides is equivalent). -/

/-- `\w` of the JS regexes: `[A-Za-z0-9_]` (ASCII word character). -/
def isWordChar (c : Char) : Bool := c.isAlpha || c.isDigit || c == '_'

/-- `matchesAt pat s` : `pat` occurs at the head of `s`. -/
def matchesAt : List Char → List Char → Bool
  | [], _ => true
  | _ :: _, [] => false
  | p :: ps, c :: cs => p == c && matchesAt ps cs

/-- `occursIn s pat` : `pat` occurs somewhere in `s` (regex `.test` of a
literal pattern). -/
def occursIn (s pat : List Char) : Bool := s.tails.any fun t => matchesAt pat t

/-- `/<script\b[^<]*(?:(?!<\/script>)<[^<]*)*<\/script>/i` : an occurrence
of `<script` at a word boundary with some later `</script>`; in between the
regex consumes arbitrary characters (each `<` that is not the start of the
closing tag is eaten by the inner group), so the matcher only needs the
boundary and the closing tag. -/
def scriptTagTest (s : List Char) : Bool :=
  s.tails.any fun t =>
    matchesAt "<script".data t &&
    (match t.drop 7 with
     | [] => false
     | c :: _ => !isWordChar c) &&
    ((t.drop 7).tails.any fun u => matchesAt "</script>".data u)

/-- `/<iframe\b[^>]*>/i` : `<iframe` at a word boundary followed by a `>`
(with only non-`>` characters before it, which is automatic for the first
such `>`). -/
def iframeTest (s : List Char) : Bool :=
  s.tails.any fun t =>
    matchesAt "<iframe".data t &&
    (match t.drop 7 with
     | [] => false
     | c :: rest => !isWordChar c && (c :: rest).contains '>')

/-- Drop a maximal run of word characters (`\w*` after the first). -/
def dropWordChars : List Char → List Char
  | [] => []
  | c :: cs => if isWordChar c then dropWordChars cs else c :: cs

/-- Drop a maximal run of whitespace (`\s*`). -/
def dropSpaces : List Char → List Char
  | [] => []
  | c :: cs => if c.isWhitespace then dropSpaces cs else c :: cs

/-- `/on\w+\s*=/i` : `on`, one or more word characters, optional
whitespace, then `=`.  Greedy matching without backtracking is exact here:
a shorter `\w+` leaves a word character which `\s*` cannot skip and which
is not `=`. -/
def onEventTest (s : List Char) : Bool :=
  s.tails.any fun t =>
    matchesAt "on".data t &&
    (match t.drop 2 with
     | [] => false
     | c :: cs =>
        isWordChar c &&
        (match dropSpaces (dropWordChars cs) with
         | '=' :: _ => true
         | _ => false))

/-- The result record of the moderation functions:
`{ safe: boolean, reason?: string }`. -/
structure ModResult where
  safe : Bool
  reason : Option String
  deriving DecidableEq, Repr

/-- The `for`-loop over `suspiciousPatterns` in `basicContentCheck`:
true when any of the six patterns matches.  Case-insensitivity of the `i`
flag is embedded by lower-casing the subject character by character. -/
def suspiciousHit (content : String) : Bool :=
  let s := content.data.map Char.toLower
  scriptTagTest s || iframeTest s || occursIn s "javascript:".data ||
    occursIn s "data:text/html".data || occursIn s "vbscript:".data || onEventTest s

/-- `basicContentCheck(content)` : the pattern fallback; also flags
content longer than 50000 characters. -/
def basicContentCheck (content : String) : ModResult :=
  if suspiciousHit content then
    { safe := false, reason := some "Content contains potentially malicious code" }
  else if content.length > 50000 then
    { safe := false, reason := some "Content exceeds reasonable length limits" }
  else
    { safe := true, reason := none }

/-- Outcome of the Workers AI call inside `moderateContent`: either the
response text extracted from the model reply (`response?.response ||
response?.output || ''`, stringified), or the call threw. The 20000-char
truncation applies to the prompt, hence is folded into this outcome. -/
inductive AIOutcome where
  | ok (responseText : String)
  | failure
  deriving DecidableEq, Repr

/-- `split(':')` of JS at the character level: the list of colon-free
pieces of `s`. -/
def splitOnColon : List Char → List (List Char)
  | [] => [[]]
  | c :: cs =>
      if c == ':' then [] :: splitOnColon cs
      else
        match splitOnColon cs with
        | [] => [[c]]
        | p :: ps => (c :: p) :: ps

/-- `trim()` of JS at the character level: strip whitespace from both
ends. -/
def trimChars (s : List Char) : List Char :=
  ((s.dropWhile Char.isWhitespace).reverse.dropWhile Char.isWhitespace).reverse

/-- `responseText.split(':')[1]?.trim() || 'Content flagged as potentially
harmful'` : the reason extracted from an UNSAFE reply (a missing second
piece, and an empty trimmed piece — falsy in JS — both fall back to the
default message). -/
def flaggedReason (responseText : String) : String :=
  match splitOnColon responseText.data with
  | _ :: second :: _ =>
      if trimChars second = [] then "Content flagged as potentially harmful"
      else String.mk (trimChars second)
  | _ => "Content flagged as potentially harmful"

/-- `moderateContent(content, ai)` : an AI reply containing `UNSAFE`
(case-insensitively, via `toUpperCase().includes`) blocks with the
extracted reason; any other reply is safe; a failed AI call falls back to
`basicContentCheck(content)`. -/
def moderateContent (content : String) (ai : AIOutcome) : ModResult :=
  match ai with
  | .ok responseText =>
      if occursIn (responseText.data.map Char.toUpper) "UNSAFE".data then
        { safe := false, reason := some (flaggedReason responseText) }
      else
        { safe := true, reason := none }
  | .failure => basicContentCheck content

/-! ## The publish orchestrator and the document loader (src/app/routes.ts) -/

/-- The environment of one publish request: the secondary rate limiter
result (`none` models the `limit` call throwing, which the action catches
and ignores), the AI outcome, whether the documents INSERT succeeds, and
the id produced by `generateShortId`. -/
structure PublishEnv where
  rateLimit : Option Bool
  ai : AIOutcome
  saveOk : Bool
  newId : String
  deriving DecidableEq, Repr

/-- The data returned by the home `action` (success, or one of its error
returns; the formatted size text of the too-large error is elided). -/
inductive PublishOutcome where
  | errNoContent
  | errTooLarge
  | errQuota (error : Option String) (quota : Option QuotaInfo)
  | errRateLimited
  | errBlocked (reason : Option String)
  | errSaveFailed
  | published (id : String) (quota : Option QuotaInfo)
  deriving DecidableEq, Repr

/-- `UPDATE operations SET document_id = ? WHERE ip_address = ? AND
document_id IS NULL ORDER BY created_at DESC LIMIT 1` : attach `id` to the
most recently inserted operation row whose `document_id` is NULL. -/
def attachRev (id : String) : List OpRow → List OpRow
  | [] => []
  | r :: rs => if r.docId = none then { r with docId := some id } :: rs else r :: attachRev id rs

/-- See `attachRev`; rows are stored in insertion order, so the most
recent NULL row is the first NULL row of the reversed list. -/
def attachDocId (id : String) (ops : List OpRow) : List OpRow :=
  (attachRev id ops.reverse).reverse

/-- The byte ceiling of the action: `maxSize = 1.8 * 1024 * 1024`.  The
double value lies strictly between 1887436 and 1887437, so an integer byte
count exceeds it iff it exceeds 1887436. -/
def MAX_SIZE_FLOOR : Nat := 1887436

/-- The home `action` of routes.ts — the publish saga:
empty-content check, size ceiling, `consumeQuota(ip, "publish", 1)`,
secondary rate limiter (refund + abort when it rejects, ignore when it
throws), moderation (refund + abort when unsafe), persistence (refund +
abort on failure; on success insert the document and retroactively attach
its id to the operation log). -/
def publishAction (content ip : String) (now : Int) (env : PublishEnv) (db : DB) :
    PublishOutcome × DB :=
  if content = "" then (.errNoContent, db)
  else if MAX_SIZE_FLOOR < content.utf8ByteSize then (.errTooLarge, db)
  else
    let (quotaResult, db1) := consumeQuota ip "publish" 1 now db none
    if quotaResult.success = false then (.errQuota quotaResult.error quotaResult.quota, db1)
    else
      match env.rateLimit with
      | some false => (.errRateLimited, refundOne db1)
      | _ =>
        let m := moderateContent content env.ai
        if m.safe = false then (.errBlocked m.reason, refundOne db1)
        else if env.saveOk then
          (.published env.newId quotaResult.quota,
           { db1 with
               docs := db1.docs ++
                 [{ id := env.newId, title := "Untitled Document", content := content }],
               ops := attachDocId env.newId db1.ops })
        else (.errSaveFailed, refundOne db1)

/-- The document-route `loader` of routes.ts: fetch the document by id
(404 when absent, modelled as `none`), then track a view through
`consumeQuota(ip, "view", 1, db, id)` whose result is ignored (its
failures are caught and logged only), and serve the document. -/
def viewLoader (docId ip : String) (now : Int) (db : DB) : Option DocRow × DB :=
  match db.docs.find? (fun d => d.id == docId) with
  | none => (none, db)
  | some d =>
      let (_res, db1) := consumeQuota ip "view" 1 now db (some docId)
      (some d, db1)

/-! ## Usage statistics (quota.ts `getUsageStats`) -/

/-- Sum of `operation_count` over a list of operation rows. -/
def sumCounts (rows : List OpRow) : Int := (rows.map (fun r => r.opCount)).sum

/-- `SUM(operation_count)` of the rows of one `operation_type`. -/
def typeTotal (rows : List OpRow) (t : String) : Int :=
  sumCounts (rows.filter (fun r => r.opType == t))

/-- The `GROUP BY operation_type` result: one `(type, SUM(operation_count))`
pair per distinct type (`ORDER BY total_count DESC` only permutes the rows
and is irrelevant to every property proved below, so it is not modelled). -/
def breakdown (rows : List OpRow) : List (String × Int) :=
  ((rows.map (fun r => r.opType)).dedup).map (fun t => (t, typeTotal rows t))

/-- The record returned by `getUsageStats`. -/
structure UsageStats where
  quota : QuotaInfo
  operationsToday : Int
  operationBreakdown : List (String × Int)
  usagePercentage : Int
  deriving DecidableEq, Repr

/-- `Math.round` of the exact fraction `num / den` (for `den > 0`):
JS rounds half toward positive infinity, i.e. `⌊num/den + 1/2⌋`, which is
the floor division `(2 * num + den) / (2 * den)` (integer division with a
positive divisor floors in this toolchain). -/
def jsRoundFrac (num den : Int) : Int := (2 * num + den) / (2 * den)

/-! ### The `created_at >= startOfDay` comparison

The `operations.created_at` column is only ever populated by the schema
default `CURRENT_TIMESTAMP` (the INSERT in `consumeQuota` never supplies
it), which SQLite stores as the TEXT `'YYYY-MM-DD HH:MM:SS'` (UTC).  The
query in `getUsageStats` binds `startOfDay.toISOString()`, the TEXT
`'YYYY-MM-DDTHH:MM:SS.sssZ'`.  The column's declared type DATETIME gives
NUMERIC affinity, but neither text converts to a number, so both operands
stay TEXT and SQLite compares them byte-wise under the BINARY collation.
The embedding therefore renders both texts from the instants and compares
them lexicographically (byte order equals codepoint order on ASCII). -/

/-- Two-digit zero-padded decimal (for `0 ≤ n < 100`). -/
def pad2 (n : Int) : String := if n < 10 then "0" ++ toString n else toString n

/-- Three-digit zero-padded decimal (for `0 ≤ n < 1000`). -/
def pad3 (n : Int) : String :=
  if n < 10 then "00" ++ toString n else if n < 100 then "0" ++ toString n else toString n

/-- Four-digit zero-padded decimal (for `0 ≤ n < 10000`; all instants of
interest lie in years 1970–9999, where both renderings use four digits). -/
def pad4 (n : Int) : String :=
  if n < 10 then "000" ++ toString n
  else if n < 100 then "00" ++ toString n
  else if n < 1000 then "0" ++ toString n
  else toString n

/-- Proleptic-Gregorian civil date (UTC) from days since 1970-01-01. -/
def civilFromDays (z0 : Int) : Int × Int × Int :=
  let z := z0 + 719468
  let era := z / 146097
  let doe := z - era * 146097
  let yoe := (doe - doe / 1460 + doe / 36524 - doe / 146096) / 365
  let y := yoe + era * 400
  let doy := doe - (365 * yoe + yoe / 4 - yoe / 100)
  let mp := (5 * doy + 2) / 153
  let d := doy - (153 * mp + 2) / 5 + 1
  let m := if mp < 10 then mp + 3 else mp - 9
  (if m ≤ 2 then y + 1 else y, m, d)

/-- Year, month, day, hour, minute, second and millisecond (UTC) of an
epoch-millisecond instant. -/
def utcFields (ms : Int) : Int × Int × Int × Int × Int × Int × Int :=
  let days := ms / 86400000
  let msod := ms % 86400000
  match civilFromDays days with
  | (y, m, d) =>
      (y, m, d, msod / 3600000, (msod / 60000) % 60, (msod / 1000) % 60, msod % 1000)

/-- The TEXT that the `CURRENT_TIMESTAMP` column default stores for a row
inserted at instant `ms` : `'YYYY-MM-DD HH:MM:SS'` (UTC, seconds
precision). -/
def sqliteTimestamp (ms : Int) : String :=
  match utcFields ms with
  | (y, m, d, hh, mi, ss, _) =>
      pad4 y ++ "-" ++ pad2 m ++ "-" ++ pad2 d ++ " " ++
        pad2 hh ++ ":" ++ pad2 mi ++ ":" ++ pad2 ss

/-- `Date.prototype.toISOString()` of instant `ms` :
`'YYYY-MM-DDTHH:MM:SS.sssZ'` (UTC, millisecond precision). -/
def isoTimestamp (ms : Int) : String :=
  match utcFields ms with
  | (y, m, d, hh, mi, ss, msec) =>
      pad4 y ++ "-" ++ pad2 m ++ "-" ++ pad2 d ++ "T" ++
        pad2 hh ++ ":" ++ pad2 mi ++ ":" ++ pad2 ss ++ "." ++ pad3 msec ++ "Z"

/-- Byte-wise (BINARY-collation) comparison `a ≤ b` of two TEXT values,
as SQLite compares them; on ASCII text byte order equals codepoint
order. -/
def lexLe : List Char → List Char → Bool
  | [], _ => true
  | _ :: _, [] => false
  | a :: as, b :: bs =>
      if a.toNat < b.toNat then true
      else if b.toNat < a.toNat then false
      else lexLe as bs

/-- `getUsageStats(ip, db)` at time `now`, where `dayStart` is the
instant of `new Date(y, m, d)` — local midnight of the current day:
re-check the quota, sum the operations grouped by type whose stored
`created_at` TEXT compares byte-wise at or above the bound
`startOfDay.toISOString()` (see the section comment above: the row text
`sqliteTimestamp createdAt` is compared against `isoTimestamp dayStart`
under the BINARY collation), total them with `reduce`, and compute
`Math.round(((FREE_QUOTA - remaining) / FREE_QUOTA) * 100)` — embedded as
the exact rounding `jsRoundFrac ((FREE_QUOTA - remaining) * 100)
FREE_QUOTA`, which the double computation agrees with on every integer
`remaining` (the exact value is the even integer `(50 - remaining) * 2`,
never a half-integer, so the double rounding errors cannot move it across
a rounding boundary). -/
def getUsageStats (ip : String) (now dayStart : Int) (db : DB) : UsageStats × DB :=
  let (quota, db1) := checkQuota ip now db
  let todays := db1.ops.filter
    (fun r => lexLe (isoTimestamp dayStart).data (sqliteTimestamp r.createdAt).data)
  let bd := breakdown todays
  ({ quota := quota,
     operationsToday := (bd.map (fun p => p.2)).sum,
     operationBreakdown := bd,
     usagePercentage := jsRoundFrac ((FREE_QUOTA - quota.remaining) * 100) FREE_QUOTA },
   db1)

/-! ## Fault propagation (the try/catch structure of quota.ts)

`StoreHealth.failing` injects a storage fault at the initial quota read.
`checkQuota` catches it, logs, and rethrows (`throw error`);
`consumeQuota` catches everything and returns a structured failure;
`getUsageStats` catches everything and returns `null`. -/

inductive StoreHealth where
  | ok
  | failing
  deriving DecidableEq, Repr

/-- `checkQuota` under a possible storage fault: the catch block rethrows,
so a fault propagates to the caller as an exception. -/
def checkQuotaE (ip : String) (now : Int) (db : DB) :
    StoreHealth → Except String (QuotaInfo × DB)
  | .ok => .ok (checkQuota ip now db)
  | .failing => .error "storage failure"

/-- `consumeQuota` under a possible storage fault: its catch block turns
every thrown error (including the one rethrown by `checkQuota`) into the
structured result `{ success: false, error: "Failed to process quota
operation" }`; nothing escapes. -/
def consumeQuotaE (ip ty : String) (c now : Int) (db : DB) (d : Option String) :
    StoreHealth → Except String (OperationResult × DB)
  | .ok => .ok (consumeQuota ip ty c now db d)
  | .failing =>
      .ok ({ success := false, quota := none,
             error := some "Failed to process quota operation" }, db)

/-- `getUsageStats` under a possible storage fault: its catch block
returns `null` (modelled as `none`); nothing escapes. -/
def getUsageStatsE (ip : String) (now dayStart : Int) (db : DB) :
    StoreHealth → Except String (Option UsageStats × DB)
  | .ok => let r := getUsageStats ip now dayStart db; .ok (some r.1, r.2)
  | .failing => .ok (none, db)

/-! ## Operation traces over the store -/

/-- The store operations named by the quota invariant: a bare
`checkQuota` (which performs the lazy reset), a `consumeQuota` call, and
the orchestrator's refund UPDATE. -/
inductive RawOp where
  | check (now : Int)
  | consume (now : Int) (opType : String) (count : Int)
  | refund
  deriving DecidableEq, Repr

/-- Apply one raw store operation. -/
def applyRaw (ip : String) (db : DB) : RawOp → DB
  | .check now => (checkQuota ip now db).2
  | .consume now t c => (consumeQuota ip t c now db none).2
  | .refund => refundOne db

/-- Run a sequence of raw store operations. -/
def runRaw (ip : String) (db : DB) (l : List RawOp) : DB := l.foldl (applyRaw ip) db

/-- The request shapes the application actually issues: a bare quota
check (home loader), a one-unit consume whose result is kept (view, or a
publish that went through), and a publish whose downstream stage failed —
a one-unit consume compensated, when it succeeded, by an immediate
refund. -/
inductive SagaEvent where
  | check (now : Int)
  | consumeOne (now : Int) (opType : String)
  | consumeThenRefund (now : Int)
  deriving DecidableEq, Repr

/-- Apply one request-shaped event. -/
def applySaga (ip : String) (db : DB) : SagaEvent → DB
  | .check now => (checkQuota ip now db).2
  | .consumeOne now t => (consumeQuota ip t 1 now db none).2
  | .consumeThenRefund now =>
      let r := consumeQuota ip "publish" 1 now db none
      if r.1.success then refundOne r.2 else r.2

/-- Run a sequence of request-shaped events. -/
def runSaga (ip : String) (db : DB) (l : List SagaEvent) : DB := l.foldl (applySaga ip) db

/-- The stored quota, when present, lies in `[0, FREE_QUOTA]`. -/
def goodQuota : Option QuotaRow → Prop
  | none => True
  | some q => 0 ≤ q.remaining ∧ q.remaining ≤ FREE_QUOTA

instance (oq : Option QuotaRow) : Decidable (goodQuota oq) :=
  match oq with
  | none => isTrue trivial
  | some _ => instDecidableAnd

example :
    (checkQuota "1.2.3.4" 0 { quota := none, ops := [], docs := [] }).1.remaining = 50 := by
  decide

example :
    (consumeQuota "1.2.3.4" "publish" 1 10
      { quota := some { remaining := 50, lastReset := 0 }, ops := [], docs := [] }
      none).2.quota = some { remaining := 49, lastReset := 0 } := by
  decide

example :
    (consumeQuota "1.2.3.4" "publish" 1 (25 * 3600000)
      { quota := some { remaining := 3, lastReset := 0 }, ops := [], docs := [] }
      none).2.quota = some { remaining := 49, lastReset := 25 * 3600000 } := by
  decide

/-! ## Foundational lemmas about `checkQuota` and `consumeQuota` -/

/-- In-window evaluation of `checkQuota`: an existing row inside its
24-hour window is reported unchanged and nothing is written. -/
theorem checkQuota_inWindow (ip : String) (now : Int) (db : DB) (q : QuotaRow)
    (hq : db.quota = some q)
    (hwin : now - q.lastReset < QUOTA_RESET_HOURS * msPerHour) :
    checkQuota ip now db =
      ({ ip := ip, remaining := q.remaining, total := FREE_QUOTA,
         resetTime := q.lastReset + QUOTA_RESET_HOURS * msPerHour, isNewUser := false },
       db) := by
  have h : ¬ (QUOTA_RESET_HOURS * msPerHour ≤ now - q.lastReset) := by omega
  simp [checkQuota, hq, h]

/-- After `checkQuota`, the quota row exists and stores exactly the
reported `remaining`. -/
theorem checkQuota_post (ip : String) (now : Int) (db : DB) :
    ∃ l, ((checkQuota ip now db).2).quota =
      some { remaining := (checkQuota ip now db).1.remaining, lastReset := l } := by
  unfold checkQuota
  cases hq : db.quota with
  | none => exact ⟨now, rfl⟩
  | some q =>
      by_cases h : QUOTA_RESET_HOURS * msPerHour ≤ now - q.lastReset
      · simp [h]
      · refine ⟨q.lastReset, ?_⟩
        simp [h]
        exact hq

/-- `checkQuota` never touches the operation log. -/
theorem checkQuota_ops (ip : String) (now : Int) (db : DB) :
    ((checkQuota ip now db).2).ops = db.ops := by
  unfold checkQuota
  cases hq : db.quota with
  | none => rfl
  | some q =>
      by_cases h : QUOTA_RESET_HOURS * msPerHour ≤ now - q.lastReset
      · simp [h]
      · simp [h]

/-- The `remaining` reported by `checkQuota` stays in `[0, FREE_QUOTA]`
whenever the stored row does. -/
theorem checkQuota_bounds (ip : String) (now : Int) (db : DB)
    (h : goodQuota db.quota) :
    0 ≤ (checkQuota ip now db).1.remaining ∧
      (checkQuota ip now db).1.remaining ≤ FREE_QUOTA := by
  unfold checkQuota
  cases hq : db.quota with
  | none => exact ⟨by norm_num [FREE_QUOTA], by norm_num [FREE_QUOTA]⟩
  | some q =>
      by_cases hw : QUOTA_RESET_HOURS * msPerHour ≤ now - q.lastReset
      · simp only [hw, if_pos]
        exact ⟨by norm_num [FREE_QUOTA], by norm_num [FREE_QUOTA]⟩
      · simp only [hw, if_neg, not_false_iff]
        rw [hq] at h
        exact h

/-- Case analysis of `consumeQuota` relative to its inner `checkQuota`. -/
theorem consumeQuota_cases (ip t : String) (c now : Int) (db : DB) (d : Option String) :
    (¬ ((checkQuota ip now db).1.remaining < c) →
       (consumeQuota ip t c now db d).1 =
         { success := true,
           quota := some { (checkQuota ip now db).1 with
                             remaining := (checkQuota ip now db).1.remaining - c },
           error := none } ∧
       (∃ l, ((consumeQuota ip t c now db d).2).quota =
          some { remaining := (checkQuota ip now db).1.remaining - c, lastReset := l }) ∧
       ((consumeQuota ip t c now db d).2).ops =
         db.ops ++ [{ opType := t, opCount := c, docId := d, createdAt := now }]) ∧
    (((checkQuota ip now db).1.remaining < c) →
       (consumeQuota ip t c now db d).1 =
         { success := false, quota := some (checkQuota ip now db).1,
           error := some (insufficientMsg (checkQuota ip now db).1.remaining c) } ∧
       (consumeQuota ip t c now db d).2 = (checkQuota ip now db).2) := by
  obtain ⟨qi, db1, hck⟩ : ∃ qi db1, checkQuota ip now db = (qi, db1) := ⟨_, _, rfl⟩
  obtain ⟨l, hl⟩ := checkQuota_post ip now db
  have hops := checkQuota_ops ip now db
  rw [hck] at hl hops
  have hl2 : db1.quota = some { remaining := qi.remaining, lastReset := l } := hl
  have hops2 : db1.ops = db.ops := hops
  constructor
  · intro h
    rw [hck] at h
    refine ⟨?_, ⟨l, ?_⟩, ?_⟩ <;>
      simp [consumeQuota, hck, hl2, if_neg h, hops2]
  · intro h
    rw [hck] at h
    constructor <;> simp [consumeQuota, hck, if_pos h]

/-! ## Preservation of the quota range under request-shaped traces -/

/-- `refundOne` on an existing row adds exactly one unit. -/
theorem refundOne_quota (db : DB) (q : QuotaRow) (hq : db.quota = some q) :
    (refundOne db).quota = some { remaining := q.remaining + 1, lastReset := q.lastReset } := by
  simp [refundOne, hq]

/-- A one-unit consume (result kept) preserves the quota range. -/
theorem consumeOne_good (ip t : String) (now : Int) (db : DB) (d : Option String)
    (h : goodQuota db.quota) :
    goodQuota ((consumeQuota ip t 1 now db d).2).quota := by
  have hb := checkQuota_bounds ip now db h
  obtain ⟨hok, hfail⟩ := consumeQuota_cases ip t 1 now db d
  by_cases hlt : (checkQuota ip now db).1.remaining < 1
  · obtain ⟨-, h2⟩ := hfail hlt
    rw [h2]
    obtain ⟨l, hl⟩ := checkQuota_post ip now db
    rw [hl]
    exact ⟨hb.1, hb.2⟩
  · obtain ⟨-, ⟨l, hl⟩, -⟩ := hok hlt
    rw [hl]
    have h50 : FREE_QUOTA = 50 := rfl
    constructor
    · show (0 : Int) ≤ (checkQuota ip now db).1.remaining - 1
      omega
    · show (checkQuota ip now db).1.remaining - 1 ≤ FREE_QUOTA
      omega

/-- A one-unit consume compensated on success by an immediate refund
preserves the quota range. -/
theorem consumeThenRefund_good (ip : String) (now : Int) (db : DB)
    (h : goodQuota db.quota) :
    goodQuota ((if (consumeQuota ip "publish" 1 now db none).1.success
                then refundOne (consumeQuota ip "publish" 1 now db none).2
                else (consumeQuota ip "publish" 1 now db none).2)).quota := by
  have hb := checkQuota_bounds ip now db h
  obtain ⟨hok, hfail⟩ := consumeQuota_cases ip "publish" 1 now db none
  by_cases hlt : (checkQuota ip now db).1.remaining < 1
  · obtain ⟨h1, h2⟩ := hfail hlt
    rw [h1]
    simp only [Bool.false_eq_true, if_false]
    rw [h2]
    obtain ⟨l, hl⟩ := checkQuota_post ip now db
    rw [hl]
    exact ⟨hb.1, hb.2⟩
  · obtain ⟨h1, ⟨l, hl⟩, -⟩ := hok hlt
    rw [h1]
    simp only [if_true]
    rw [refundOne_quota _ _ hl]
    have h50 : FREE_QUOTA = 50 := rfl
    constructor
    · show (0 : Int) ≤ (checkQuota ip now db).1.remaining - 1 + 1
      omega
    · show (checkQuota ip now db).1.remaining - 1 + 1 ≤ FREE_QUOTA
      omega

/-- One request-shaped event preserves the quota range. -/
theorem applySaga_good (ip : String) (db : DB) (e : SagaEvent)
    (h : goodQuota db.quota) : goodQuota ((applySaga ip db e).quota) := by
  cases e with
  | check now =>
      have hb := checkQuota_bounds ip now db h
      obtain ⟨l, hl⟩ := checkQuota_post ip now db
      show goodQuota ((checkQuota ip now db).2).quota
      rw [hl]
      exact ⟨hb.1, hb.2⟩
  | consumeOne now t => exact consumeOne_good ip t now db none h
  | consumeThenRefund now => exact consumeThenRefund_good ip now db h

/-- C1 (amended): for every identity and every sequence of request-shaped
operations — quota checks (including the lazy daily reset), one-unit
consumes, and publishes whose downstream failure refunds their own
just-successful one-unit consume immediately — the stored remaining quota
stays in the closed interval `[0, FREE_QUOTA]`: consume fails closed when
remaining is insufficient, and a compensating refund never pushes
remaining above the daily limit.  (The unamended claim, quantifying over
arbitrary interleavings of consume, refund and reset, is refuted by
`refund_overshoot_counterexample`: the store never clamps the refund
UPDATE.) -/
theorem saga_remaining_in_range (ip : String) (db : DB) (evts : List SagaEvent)
    (h : goodQuota db.quota) : goodQuota ((runSaga ip db evts).quota) := by
  induction evts generalizing db with
  | nil => exact h
  | cons e es ih => exact ih (applySaga ip db e) (applySaga_good ip db e h)

/-- Witness for `saga_remaining_in_range` at a concrete state and trace. -/
theorem saga_remaining_in_range_witness :
    goodQuota (some { remaining := 50, lastReset := 0 } : Option QuotaRow) ∧
    goodQuota ((runSaga "1.2.3.4"
        { quota := some { remaining := 50, lastReset := 0 }, ops := [], docs := [] }
        [.check 10, .consumeOne 20 "view", .consumeThenRefund 30,
         .check (25 * 3600000), .consumeOne (25 * 3600000 + 1) "publish"]).quota) :=
  ⟨by decide, saga_remaining_in_range "1.2.3.4" _ _ (by decide)⟩

/-- C1 counterexample: a refund that lands after an intervening lazy reset
(a schedule the store permits: consume at time 0, another request's
`checkQuota` 24 hours later, then the first request's refund) pushes the
stored remaining to 51, outside `[0, dailyLimit]` — the refund UPDATE is
uncapped. -/
theorem refund_overshoot_counterexample :
    (runRaw "1.2.3.4"
        { quota := some { remaining := 50, lastReset := 0 }, ops := [], docs := [] }
        [.consume 0 "publish" 1, .check 86400000, .refund]).quota
      = some { remaining := 51, lastReset := 86400000 } ∧
    ¬ goodQuota ((runRaw "1.2.3.4"
        { quota := some { remaining := 50, lastReset := 0 }, ops := [], docs := [] }
        [.consume 0 "publish" 1, .check 86400000, .refund]).quota) := by
  exact ⟨by decide, by decide⟩

/-- C2: whenever the post-window-check remaining quota is strictly below
the requested `operationCount`, `consumeQuota` returns `success := false`
with the current `QuotaInfo` and the insufficient-quota message, and
performs no mutation beyond the window check itself; in particular, for a
record inside its window (whose check is pure — e.g. remaining 0 and
`operationCount` 1) the database is completely unchanged. -/
theorem consumeQuota_insufficient_no_mutation (ip t : String) (c now : Int)
    (db : DB) (d : Option String)
    (hlt : (checkQuota ip now db).1.remaining < c) :
    consumeQuota ip t c now db d =
      ({ success := false, quota := some (checkQuota ip now db).1,
         error := some (insufficientMsg (checkQuota ip now db).1.remaining c) },
       (checkQuota ip now db).2) ∧
    (∀ q, db.quota = some q →
       now - q.lastReset < QUOTA_RESET_HOURS * msPerHour →
       (consumeQuota ip t c now db d).2 = db) := by
  obtain ⟨-, hfail⟩ := consumeQuota_cases ip t c now db d
  obtain ⟨h1, h2⟩ := hfail hlt
  refine ⟨Prod.ext h1 h2, ?_⟩
  intro q hq hwin
  rw [h2, checkQuota_inWindow ip now db q hq hwin]

/-- Witness for `consumeQuota_insufficient_no_mutation`: remaining 0,
requesting 1, fails with the message and leaves remaining at 0. -/
theorem consumeQuota_insufficient_no_mutation_witness :
    (consumeQuota "1.2.3.4" "publish" 1 5
        { quota := some { remaining := 0, lastReset := 0 }, ops := [], docs := [] } none =
      ({ success := false,
         quota := some { ip := "1.2.3.4", remaining := 0, total := 50,
                         resetTime := 86400000, isNewUser := false },
         error := some "Insufficient quota. You have 0 documents remaining. This action requires 1 documents." },
       { quota := some { remaining := 0, lastReset := 0 }, ops := [], docs := [] }) ∧
    (∀ q, (some { remaining := 0, lastReset := 0 } : Option QuotaRow) = some q →
       5 - q.lastReset < QUOTA_RESET_HOURS * msPerHour →
       (consumeQuota "1.2.3.4" "publish" 1 5
         { quota := some { remaining := 0, lastReset := 0 }, ops := [], docs := [] }
         none).2 =
       { quota := some { remaining := 0, lastReset := 0 }, ops := [], docs := [] })) :=
  consumeQuota_insufficient_no_mutation "1.2.3.4" "publish" 1 5 _ none (by decide)

/-- C3: a stored record whose `lastReset` is at least 24 hours in the
past is reset by the next `checkQuota`: remaining becomes `FREE_QUOTA`,
`lastReset` becomes `now`, and the returned info reports
`remaining = FREE_QUOTA` with `isNewUser = false`, regardless of the
prior remaining value. -/
theorem checkQuota_expired_resets (ip : String) (now : Int) (db : DB) (q : QuotaRow)
    (hq : db.quota = some q)
    (hexp : QUOTA_RESET_HOURS * msPerHour ≤ now - q.lastReset) :
    checkQuota ip now db =
      ({ ip := ip, remaining := FREE_QUOTA, total := FREE_QUOTA,
         resetTime := now + QUOTA_RESET_HOURS * msPerHour, isNewUser := false },
       { db with quota := some { remaining := FREE_QUOTA, lastReset := now } }) := by
  simp [checkQuota, hq, if_pos hexp]

/-- Witness for `checkQuota_expired_resets`: `lastReset` 25 hours in the
past and remaining 3 resets to 50. -/
theorem checkQuota_expired_resets_witness :
    checkQuota "1.2.3.4" (25 * 3600000)
        { quota := some { remaining := 3, lastReset := 0 }, ops := [], docs := [] } =
      ({ ip := "1.2.3.4", remaining := 50, total := 50,
         resetTime := 25 * 3600000 + 86400000, isNewUser := false },
       { quota := some { remaining := 50, lastReset := 25 * 3600000 }, ops := [], docs := [] }) :=
  checkQuota_expired_resets "1.2.3.4" (25 * 3600000) _
    { remaining := 3, lastReset := 0 } rfl (by decide)

/-- C5: the first `checkQuota` for an identity with no stored record
creates and persists a row with `remaining = FREE_QUOTA` and
`lastReset = now`, and returns `remaining = total = FREE_QUOTA`,
`isNewUser = true`, `resetTime = now + 24h`. -/
theorem checkQuota_first_call_new_user (ip : String) (now : Int) (db : DB)
    (hq : db.quota = none) :
    checkQuota ip now db =
      ({ ip := ip, remaining := FREE_QUOTA, total := FREE_QUOTA,
         resetTime := now + QUOTA_RESET_HOURS * msPerHour, isNewUser := true },
       { db with quota := some { remaining := FREE_QUOTA, lastReset := now } }) := by
  simp [checkQuota, hq]

/-- Witness for `checkQuota_first_call_new_user`. -/
theorem checkQuota_first_call_new_user_witness :
    checkQuota "1.2.3.4" 1000 { quota := none, ops := [], docs := [] } =
      ({ ip := "1.2.3.4", remaining := 50, total := 50,
         resetTime := 1000 + 86400000, isNewUser := true },
       { quota := some { remaining := 50, lastReset := 1000 }, ops := [], docs := [] }) :=
  checkQuota_first_call_new_user "1.2.3.4" 1000 _ rfl

/-- In-window successful evaluation of `consumeQuota`: with an existing
row inside its window and sufficient remaining, the call deducts
`operationCount`, keeps `last_reset`, appends the operation record, and
reports the deducted info. -/
theorem consumeQuota_inWindow_success (ip t : String) (c now : Int) (db : DB)
    (d : Option String) (q : QuotaRow)
    (hq : db.quota = some q)
    (hwin : now - q.lastReset < QUOTA_RESET_HOURS * msPerHour)
    (hge : ¬ (q.remaining < c)) :
    consumeQuota ip t c now db d =
      ({ success := true,
         quota := some { ip := ip, remaining := q.remaining - c, total := FREE_QUOTA,
                         resetTime := q.lastReset + QUOTA_RESET_HOURS * msPerHour,
                         isNewUser := false },
         error := none },
       { db with quota := some { remaining := q.remaining - c, lastReset := q.lastReset },
                 ops := db.ops ++
                   [{ opType := t, opCount := c, docId := d, createdAt := now }] }) := by
  have hck := checkQuota_inWindow ip now db q hq hwin
  simp [consumeQuota, hck, if_neg hge, hq]

/-- C10: `consumeQuota` does not validate `operationCount >= 1`: for an
in-window record with non-negative remaining and any
`operationCount <= 0`, the insufficiency check cannot trigger, so the
call succeeds, stores `remaining - operationCount` (never smaller than
before, strictly larger when the count is negative — possibly above the
daily limit), and appends an operation record with that non-positive
count. -/
theorem consumeQuota_nonpositive_count (ip t : String) (c now : Int) (db : DB)
    (d : Option String) (q : QuotaRow)
    (hq : db.quota = some q)
    (hwin : now - q.lastReset < QUOTA_RESET_HOURS * msPerHour)
    (hr : 0 ≤ q.remaining) (hc : c ≤ 0) :
    (consumeQuota ip t c now db d).1.success = true ∧
    ((consumeQuota ip t c now db d).2).quota =
      some { remaining := q.remaining - c, lastReset := q.lastReset } ∧
    q.remaining ≤ q.remaining - c ∧
    (c < 0 → q.remaining < q.remaining - c) ∧
    ((consumeQuota ip t c now db d).2).ops =
      db.ops ++ [{ opType := t, opCount := c, docId := d, createdAt := now }] := by
  have hge : ¬ (q.remaining < c) := by omega
  rw [consumeQuota_inWindow_success ip t c now db d q hq hwin hge]
  exact ⟨rfl, rfl, by omega, by omega, rfl⟩

/-- In-window failing evaluation of `consumeQuota` (shared helper): with
an existing row inside its window and insufficient remaining, the call
fails and writes nothing. -/
theorem consumeQuota_inWindow_fail (ip t : String) (c now : Int) (db : DB)
    (d : Option String) (q : QuotaRow)
    (hq : db.quota = some q)
    (hwin : now - q.lastReset < QUOTA_RESET_HOURS * msPerHour)
    (hlt : q.remaining < c) :
    consumeQuota ip t c now db d =
      ({ success := false,
         quota := some { ip := ip, remaining := q.remaining, total := FREE_QUOTA,
                         resetTime := q.lastReset + QUOTA_RESET_HOURS * msPerHour,
                         isNewUser := false },
         error := some (insufficientMsg q.remaining c) }, db) := by
  have hck := checkQuota_inWindow ip now db q hq hwin
  simp [consumeQuota, hck, if_pos hlt]

/-- C4 counterexample: with a stored record of remaining 3 whose window
expired 25 hours ago, a successful publish consume performs the lazy
reset first, so the refund on the failure branch restores remaining to 50
— not to the pre-consume stored value 3: the consume-then-refund round
trip is not a no-op on remaining when the consume resets. -/
theorem consume_refund_after_reset_counterexample :
    (consumeQuota "1.2.3.4" "publish" 1 90000000
        { quota := some { remaining := 3, lastReset := 0 }, ops := [], docs := [] }
        none).1.success = true ∧
    (refundOne (consumeQuota "1.2.3.4" "publish" 1 90000000
        { quota := some { remaining := 3, lastReset := 0 }, ops := [], docs := [] }
        none).2).quota = some { remaining := 50, lastReset := 90000000 } ∧
    (50 : Int) ≠ 3 :=
  ⟨by decide, by decide, by decide⟩

/-- C4 (amended): when the stored record is inside its 24-hour window at
consume time, a successful one-unit publish consume followed by the
orchestrator's refund restores the stored remaining exactly to its
pre-consume value (the refund adds back exactly the one deducted unit);
when the consume itself performs the lazy reset, the refund restores to
the post-reset value `FREE_QUOTA` instead (see the counterexample). -/
theorem consume_refund_roundtrip_in_window (ip : String) (now : Int) (db : DB)
    (d : Option String) (q : QuotaRow)
    (hq : db.quota = some q)
    (hwin : now - q.lastReset < QUOTA_RESET_HOURS * msPerHour)
    (h1 : 1 ≤ q.remaining) :
    (consumeQuota ip "publish" 1 now db d).1.success = true ∧
    ((consumeQuota ip "publish" 1 now db d).2).quota =
      some { remaining := q.remaining - 1, lastReset := q.lastReset } ∧
    (refundOne ((consumeQuota ip "publish" 1 now db d).2)).quota = db.quota := by
  have hge : ¬ (q.remaining < 1) := by omega
  rw [consumeQuota_inWindow_success ip "publish" 1 now db d q hq hwin hge]
  refine ⟨rfl, rfl, ?_⟩
  rw [refundOne_quota _ { remaining := q.remaining - 1, lastReset := q.lastReset } rfl, hq]
  have h2 : q.remaining - 1 + 1 = q.remaining := by omega
  rw [h2]

/-- Witness for `consume_refund_roundtrip_in_window`. -/
theorem consume_refund_roundtrip_in_window_witness :
    (consumeQuota "1.2.3.4" "publish" 1 10
        { quota := some { remaining := 50, lastReset := 0 }, ops := [], docs := [] }
        none).1.success = true ∧
    ((consumeQuota "1.2.3.4" "publish" 1 10
        { quota := some { remaining := 50, lastReset := 0 }, ops := [], docs := [] }
        none).2).quota = some { remaining := 49, lastReset := 0 } ∧
    (refundOne ((consumeQuota "1.2.3.4" "publish" 1 10
        { quota := some { remaining := 50, lastReset := 0 }, ops := [], docs := [] }
        none).2)).quota = some { remaining := 50, lastReset := 0 } :=
  consume_refund_roundtrip_in_window "1.2.3.4" 10 _ none
    { remaining := 50, lastReset := 0 } rfl (by decide) (by decide)

/-- Witness for `consumeQuota_nonpositive_count`: an in-window record with
remaining 50 and a consume of count -1 succeeds and stores 51 — above the
daily limit. -/
theorem consumeQuota_nonpositive_count_witness :
    (consumeQuota "1.2.3.4" "publish" (-1) 5
        { quota := some { remaining := 50, lastReset := 0 }, ops := [], docs := [] }
        none).1.success = true ∧
    ((consumeQuota "1.2.3.4" "publish" (-1) 5
        { quota := some { remaining := 50, lastReset := 0 }, ops := [], docs := [] }
        none).2).quota = some { remaining := 51, lastReset := 0 } ∧
    (50 : Int) ≤ 51 ∧
    ((-1 : Int) < 0 → (50 : Int) < 51) ∧
    ((consumeQuota "1.2.3.4" "publish" (-1) 5
        { quota := some { remaining := 50, lastReset := 0 }, ops := [], docs := [] }
        none).2).ops =
      [] ++ [{ opType := "publish", opCount := -1, docId := none, createdAt := 5 }] :=
  consumeQuota_nonpositive_count "1.2.3.4" "publish" (-1) 5 _ none
    { remaining := 50, lastReset := 0 } rfl (by decide) (by decide) (by decide)

/-- C6 counterexample: serving a document deducts a quota unit — viewing
a document at remaining 50 leaves remaining 49 (the loader calls
`consumeQuota(ip, "view", 1)`), contradicting "a view does not deduct a
quota unit"; and at remaining 0 the view is not logged at all (the
consume fails closed and appends nothing), contradicting "a view
operation is always logged". -/
theorem view_deducts_unit_counterexample :
    (viewLoader "d1" "1.2.3.4" 1000
        { quota := some { remaining := 50, lastReset := 0 }, ops := [],
          docs := [{ id := "d1", title := "t", content := "c" }] }).2.quota
      = some { remaining := 49, lastReset := 0 } ∧
    (49 : Int) ≠ 50 ∧
    (viewLoader "d1" "1.2.3.4" 1000
        { quota := some { remaining := 0, lastReset := 0 }, ops := [],
          docs := [{ id := "d1", title := "t", content := "c" }] }).2.ops = [] :=
  ⟨by decide, by decide, by decide⟩

/-- C6 (amended): a view is never blocked by quota — the loader serves
the found document whatever `consumeQuota` returns (its result is ignored
and failures only logged) — but views are charged like publishes: for an
in-window record, a view with remaining ≥ 1 deducts one unit and appends
a "view" operation record, while a view with remaining 0 (or less)
deducts nothing and logs nothing. -/
theorem viewLoader_serves_and_charges (docId ip : String) (now : Int) (db : DB)
    (q : QuotaRow) (doc : DocRow)
    (hq : db.quota = some q)
    (hwin : now - q.lastReset < QUOTA_RESET_HOURS * msPerHour)
    (hdoc : db.docs.find? (fun x => x.id == docId) = some doc) :
    (viewLoader docId ip now db).1 = some doc ∧
    (1 ≤ q.remaining →
       ((viewLoader docId ip now db).2).quota =
         some { remaining := q.remaining - 1, lastReset := q.lastReset } ∧
       ((viewLoader docId ip now db).2).ops =
         db.ops ++ [{ opType := "view", opCount := 1, docId := some docId,
                      createdAt := now }]) ∧
    (q.remaining < 1 → (viewLoader docId ip now db).2 = db) := by
  refine ⟨by simp [viewLoader, hdoc], ?_, ?_⟩
  · intro h1
    have hge : ¬ (q.remaining < 1) := by omega
    have hcons := consumeQuota_inWindow_success ip "view" 1 now db (some docId) q hq hwin hge
    constructor <;> simp [viewLoader, hdoc, hcons]
  · intro h0
    have hcons := consumeQuota_inWindow_fail ip "view" 1 now db (some docId) q hq hwin h0
    simp [viewLoader, hdoc, hcons]

/-- Witness for `viewLoader_serves_and_charges`. -/
theorem viewLoader_serves_and_charges_witness :
    (viewLoader "d1" "1.2.3.4" 1000
        { quota := some { remaining := 50, lastReset := 0 }, ops := [],
          docs := [{ id := "d1", title := "t", content := "c" }] }).1
      = some { id := "d1", title := "t", content := "c" } ∧
    ((1 : Int) ≤ 50 →
       ((viewLoader "d1" "1.2.3.4" 1000
          { quota := some { remaining := 50, lastReset := 0 }, ops := [],
            docs := [{ id := "d1", title := "t", content := "c" }] }).2).quota =
         some { remaining := 49, lastReset := 0 } ∧
       ((viewLoader "d1" "1.2.3.4" 1000
          { quota := some { remaining := 50, lastReset := 0 }, ops := [],
            docs := [{ id := "d1", title := "t", content := "c" }] }).2).ops =
         [] ++ [{ opType := "view", opCount := 1, docId := some "d1",
                  createdAt := 1000 }]) ∧
    ((50 : Int) < 1 →
       (viewLoader "d1" "1.2.3.4" 1000
          { quota := some { remaining := 50, lastReset := 0 }, ops := [],
            docs := [{ id := "d1", title := "t", content := "c" }] }).2 =
         { quota := some { remaining := 50, lastReset := 0 }, ops := [],
           docs := [{ id := "d1", title := "t", content := "c" }] }) :=
  viewLoader_serves_and_charges "d1" "1.2.3.4" 1000 _
    { remaining := 50, lastReset := 0 } { id := "d1", title := "t", content := "c" }
    rfl (by decide) (by decide)

/-- C7 counterexample: the AI moderation call fails (collaborator
unavailable), yet the publish is aborted with a content-blocked error —
the fallback pattern check flags `javascript:` — and the quota unit is
refunded: a moderation-infrastructure failure does cause a
content-blocked abort for some content values. -/
theorem moderation_outage_blocks_counterexample :
    (publishAction "javascript:" "1.2.3.4" 1000
        { rateLimit := some true, ai := .failure, saveOk := true, newId := "abc" }
        { quota := some { remaining := 50, lastReset := 0 }, ops := [], docs := [] }).1
      = .errBlocked (some "Content contains potentially malicious code") ∧
    ((publishAction "javascript:" "1.2.3.4" 1000
        { rateLimit := some true, ai := .failure, saveOk := true, newId := "abc" }
        { quota := some { remaining := 50, lastReset := 0 }, ops := [], docs := [] }).2).quota
      = some { remaining := 50, lastReset := 0 } :=
  ⟨by decide, by decide⟩

/-- C7 (amended): when the AI moderation call fails, `moderateContent`
does not fail open unconditionally — it falls back to
`basicContentCheck`: the publish proceeds exactly when the pattern
fallback deems the content safe, and is aborted with a content-blocked
error (the quota unit refunded) when the fallback flags it.  Only an
error thrown out of `moderateContent` itself — which the embedded
function never does — would make the orchestrator skip moderation
entirely. -/
theorem moderation_outage_fallback (content ip : String) (now : Int)
    (env : PublishEnv) (db : DB) (q : QuotaRow)
    (hq : db.quota = some q)
    (hwin : now - q.lastReset < QUOTA_RESET_HOURS * msPerHour)
    (hr : 1 ≤ q.remaining)
    (hc : ¬ (content = ""))
    (hsize : ¬ (MAX_SIZE_FLOOR < content.utf8ByteSize))
    (hai : env.ai = .failure)
    (hrl : env.rateLimit = some true)
    (hsave : env.saveOk = true) :
    moderateContent content env.ai = basicContentCheck content ∧
    ((basicContentCheck content).safe = true →
       (publishAction content ip now env db).1 =
         .published env.newId
           (some { ip := ip, remaining := q.remaining - 1, total := FREE_QUOTA,
                   resetTime := q.lastReset + QUOTA_RESET_HOURS * msPerHour,
                   isNewUser := false })) ∧
    ((basicContentCheck content).safe = false →
       (publishAction content ip now env db).1 =
         .errBlocked (basicContentCheck content).reason ∧
       ((publishAction content ip now env db).2).quota = db.quota) := by
  have hge : ¬ (q.remaining < 1) := by omega
  have hcons := consumeQuota_inWindow_success ip "publish" 1 now db none q hq hwin hge
  have hm : moderateContent content AIOutcome.failure = basicContentCheck content := rfl
  refine ⟨by rw [hai]; exact hm, ?_, ?_⟩
  · intro hsafe
    simp [publishAction, hc, hsize, hcons, hrl, hai, hm, hsafe, hsave]
  · intro hunsafe
    have hres : publishAction content ip now env db =
        (.errBlocked (basicContentCheck content).reason,
         refundOne
           { quota := some { remaining := q.remaining - 1, lastReset := q.lastReset },
             ops := db.ops ++
               [{ opType := "publish", opCount := 1, docId := none, createdAt := now }],
             docs := db.docs }) := by
      simp [publishAction, hc, hsize, hcons, hrl, hai, hm, hunsafe]
    rw [hres]
    refine ⟨rfl, ?_⟩
    rw [refundOne_quota _ { remaining := q.remaining - 1, lastReset := q.lastReset } rfl, hq]
    have h2 : q.remaining - 1 + 1 = q.remaining := by omega
    rw [h2]

/-- Witness for `moderation_outage_fallback` at safe content "hello". -/
theorem moderation_outage_fallback_witness :
    moderateContent "hello"
        ({ rateLimit := some true, ai := .failure, saveOk := true,
           newId := "abc" } : PublishEnv).ai = basicContentCheck "hello" ∧
    ((basicContentCheck "hello").safe = true →
       (publishAction "hello" "1.2.3.4" 1000
          { rateLimit := some true, ai := .failure, saveOk := true, newId := "abc" }
          { quota := some { remaining := 50, lastReset := 0 }, ops := [], docs := [] }).1 =
         .published "abc"
           (some { ip := "1.2.3.4", remaining := 49, total := 50,
                   resetTime := 86400000, isNewUser := false })) ∧
    ((basicContentCheck "hello").safe = false →
       (publishAction "hello" "1.2.3.4" 1000
          { rateLimit := some true, ai := .failure, saveOk := true, newId := "abc" }
          { quota := some { remaining := 50, lastReset := 0 }, ops := [], docs := [] }).1 =
         .errBlocked (basicContentCheck "hello").reason ∧
       ((publishAction "hello" "1.2.3.4" 1000
          { rateLimit := some true, ai := .failure, saveOk := true, newId := "abc" }
          { quota := some { remaining := 50, lastReset := 0 }, ops := [], docs := [] }).2).quota =
         some { remaining := 50, lastReset := 0 }) :=
  moderation_outage_fallback "hello" "1.2.3.4" 1000
    { rateLimit := some true, ai := .failure, saveOk := true, newId := "abc" } _
    { remaining := 50, lastReset := 0 } rfl (by decide) (by decide) (by decide)
    (by decide) rfl rfl rfl

/-- C8 counterexample: a storage-layer fault during `getUsageStats` does
not propagate to the caller as an exception — the catch block swallows it
and the function returns `null` as a normal value. -/
theorem getUsageStats_swallows_fault_counterexample :
    getUsageStatsE "1.2.3.4" 1000 0 { quota := none, ops := [], docs := [] } .failing
      = .ok (none, { quota := none, ops := [], docs := [] }) := rfl

/-- C8 (amended): a storage fault on `checkQuota`'s read path is rethrown
and propagates as an exception; `consumeQuota` converts every fault into
the structured result `{success: false, error: "Failed to process quota
operation"}` and never raises; `getUsageStats` also never raises — it
swallows the fault and returns `null` (which its HTTP caller maps to a
500 response) rather than propagating a hard failure. -/
theorem fault_propagation_policy (ip t : String) (c now dayStart : Int)
    (db : DB) (d : Option String) :
    checkQuotaE ip now db .failing = .error "storage failure" ∧
    consumeQuotaE ip t c now db d .failing =
      .ok ({ success := false, quota := none,
             error := some "Failed to process quota operation" }, db) ∧
    getUsageStatsE ip now dayStart db .failing = .ok (none, db) ∧
    (∀ h : StoreHealth, ∃ r, consumeQuotaE ip t c now db d h = .ok r) ∧
    (∀ h : StoreHealth, ∃ r, getUsageStatsE ip now dayStart db h = .ok r) := by
  refine ⟨rfl, rfl, rfl, ?_, ?_⟩ <;> intro h <;> cases h <;> exact ⟨_, rfl⟩

/-- Pointwise sums distribute over a mapped list. -/
theorem list_sum_map_add {α : Type} (l : List α) (f g : α → Int) :
    (l.map (fun x => f x + g x)).sum = (l.map f).sum + (l.map g).sum := by
  induction l with
  | nil => simp
  | cons a l ih => simp [ih]; ring

/-- Over a duplicate-free key list, summing the indicator of one key
yields the keyed value exactly when the key occurs. -/
theorem sum_ite_single (ks : List String) (hnd : ks.Nodup) (a : String) (c : Int) :
    ((ks.map (fun t => if a = t then c else 0)).sum) = if a ∈ ks then c else 0 := by
  induction ks with
  | nil => simp
  | cons k ks ih =>
      rcases List.nodup_cons.mp hnd with ⟨hk, hnd2⟩
      by_cases hak : a = k
      · subst hak
        simp [ih hnd2, hk]
      · simp [ih hnd2, hak]

/-- `typeTotal` over a cons splits off the head row's contribution. -/
theorem typeTotal_cons (r : OpRow) (rest : List OpRow) (t : String) :
    typeTotal (r :: rest) t = (if r.opType = t then r.opCount else 0) + typeTotal rest t := by
  by_cases h : r.opType = t
  · simp [typeTotal, sumCounts, List.filter_cons, h]
  · simp [typeTotal, sumCounts, List.filter_cons, h]

/-- Partition sum: the per-type totals over any duplicate-free key list
covering every row add up to the total over all rows. -/
theorem sum_typeTotal (rows : List OpRow) (ks : List String) (hnd : ks.Nodup)
    (hmem : ∀ r ∈ rows, r.opType ∈ ks) :
    ((ks.map (fun t => typeTotal rows t)).sum) = sumCounts rows := by
  induction rows with
  | nil => simp [typeTotal, sumCounts]
  | cons r rest ih =>
      simp only [typeTotal_cons]
      rw [list_sum_map_add ks (fun t => if r.opType = t then r.opCount else 0)
        (fun t => typeTotal rest t)]
      rw [sum_ite_single ks hnd r.opType r.opCount]
      rw [if_pos (hmem r (List.mem_cons_self r rest))]
      rw [ih (fun x hx => hmem x (List.mem_cons_of_mem r hx))]
      simp [sumCounts]

/-- The grouped `SUM(operation_count)` totals of `breakdown` add up to
the plain sum over all rows — the `reduce` in `getUsageStats` computes
the total of today's operation counts. -/
theorem breakdown_total (rows : List OpRow) :
    (((breakdown rows).map (fun p => p.2)).sum) = sumCounts rows := by
  unfold breakdown
  rw [List.map_map]
  exact sum_typeTotal rows ((rows.map (fun r => r.opType)).dedup) (List.nodup_dedup _)
    (fun r hr => List.mem_dedup.mpr (List.mem_map.mpr ⟨r, hr, rfl⟩))

/-- The integer rounding used by the embedding agrees with exact rational
`round` of `n / FREE_QUOTA`. -/
theorem jsRoundFrac_eq_round (n : Int) :
    jsRoundFrac n FREE_QUOTA = round ((n : ℚ) / (FREE_QUOTA : ℚ)) := by
  rw [round_eq]
  have h : ((n : ℚ) / (FREE_QUOTA : ℚ) + 1 / 2)
      = ((2 * n + 50 : ℤ) : ℚ) / ((100 : ℕ) : ℚ) := by
    have h50 : ((FREE_QUOTA : ℤ) : ℚ) = 50 := by norm_num [FREE_QUOTA]
    rw [h50]
    push_cast
    ring
  rw [h, Rat.floor_intCast_div_natCast]
  show (2 * n + FREE_QUOTA) / (2 * FREE_QUOTA) = _
  norm_num [FREE_QUOTA]

/-- Characterization of the embedded `getUsageStats` (helper, not a
claim): it re-derives `checkQuota`, its `operationsToday` equals the sum
of `operation_count` over the rows passing the program's byte-wise
string filter (the grouped totals re-summed equal the plain sum), and
its `usagePercentage` equals the exact rational rounding of
`(dailyLimit - remaining) / dailyLimit * 100`. -/
theorem getUsageStats_characterization (ip : String) (now dayStart : Int)
    (db : DB) :
    (getUsageStats ip now dayStart db).1.quota = (checkQuota ip now db).1 ∧
    (getUsageStats ip now dayStart db).1.operationsToday =
      sumCounts (db.ops.filter
        (fun r => lexLe (isoTimestamp dayStart).data (sqliteTimestamp r.createdAt).data)) ∧
    (getUsageStats ip now dayStart db).1.usagePercentage =
      round ((((FREE_QUOTA : ℚ) - ((checkQuota ip now db).1.remaining : ℚ))
        / (FREE_QUOTA : ℚ)) * 100) := by
  refine ⟨rfl, ?_, ?_⟩
  · calc (getUsageStats ip now dayStart db).1.operationsToday
        = (((breakdown ((((checkQuota ip now db).2).ops).filter
              (fun r => lexLe (isoTimestamp dayStart).data
                (sqliteTimestamp r.createdAt).data))).map (fun p => p.2)).sum) := rfl
      _ = sumCounts ((((checkQuota ip now db).2).ops).filter
              (fun r => lexLe (isoTimestamp dayStart).data
                (sqliteTimestamp r.createdAt).data)) := breakdown_total _
      _ = sumCounts ((db.ops).filter
              (fun r => lexLe (isoTimestamp dayStart).data
                (sqliteTimestamp r.createdAt).data)) := by
            rw [checkQuota_ops]
  · calc (getUsageStats ip now dayStart db).1.usagePercentage
        = jsRoundFrac ((FREE_QUOTA - (checkQuota ip now db).1.remaining) * 100)
            FREE_QUOTA := rfl
      _ = round ((((FREE_QUOTA - (checkQuota ip now db).1.remaining) * 100 : ℤ) : ℚ)
            / (FREE_QUOTA : ℚ)) := jsRoundFrac_eq_round _
      _ = round ((((FREE_QUOTA : ℚ) - ((checkQuota ip now db).1.remaining : ℚ))
            / (FREE_QUOTA : ℚ)) * 100) := by
            congr 1
            push_cast
            ring

/-- C9 (evaluated at the failing input): an operation logged five seconds
after local-day start — `dayStart` = 2026-10-12T00:00:00.000Z, the row
inserted at 2026-10-12 00:00:05 and stored as that `CURRENT_TIMESTAMP`
text — is excluded by the query, because the row text compares below the
ISO bound at byte 10 (`' '` < `'T'`), so `operationsToday` is 0 where the
claim requires the sum of today's counts, 1.  The `usagePercentage` half
of the claim is unaffected (2 at remaining 49). -/
theorem getUsageStats_same_day_rows_excluded :
    sqliteTimestamp 1791763205000 = "2026-10-12 00:00:05" ∧
    isoTimestamp 1791763200000 = "2026-10-12T00:00:00.000Z" ∧
    lexLe (isoTimestamp 1791763200000).data (sqliteTimestamp 1791763205000).data
      = false ∧
    (getUsageStats "1.2.3.4" 1791763210000 1791763200000
      { quota := some { remaining := 49, lastReset := 1791763200000 },
        ops := [{ opType := "publish", opCount := 1, docId := some "d1",
                  createdAt := 1791763205000 }],
        docs := [] }).1.operationsToday = 0 ∧
    sumCounts [{ opType := "publish", opCount := 1, docId := some "d1",
                 createdAt := 1791763205000 }] = 1 ∧
    (0 : Int) ≠ 1 ∧
    (getUsageStats "1.2.3.4" 1791763210000 1791763200000
      { quota := some { remaining := 49, lastReset := 1791763200000 },
        ops := [{ opType := "publish", opCount := 1, docId := some "d1",
                  createdAt := 1791763205000 }],
        docs := [] }).1.usagePercentage = 2 :=
  ⟨by decide, by decide, by decide, by decide, by decide, by decide, by decide⟩
